import Mathlib

/-!
# Verification of `extract_tiff_from_pdf` (src/extract_tiff_from_pdf/main.py)

Shallow embedding of the PDF→TIFF extraction program.  The program has two
functions:

* `extract_tiff_from_pdf` (the Dispatcher): validates the resolution and the
  input path, reads the page count via `PdfReader`, creates the output
  directory with `os.makedirs(..., exist_ok=True)`, loads the raw PDF bytes,
  submits one `_convert_page_to_image` task per page index in
  `range(total_pages)` to a `ThreadPoolExecutor(max_workers=20)`, and joins
  the futures with `as_completed`, re-raising the first observed failure.

* `_convert_page_to_image` (the Page Converter): calls
  `convert_from_bytes(raw, dpi=resolution, first_page=n+1, last_page=n+1,
  grayscale=True)`, then saves the image as
  `page_{n+1:04}.tiff` with `dpi=(resolution, resolution)` in TIFF format,
  and prints a progress line.

External collaborators (`pypdf.PdfReader`, `pdf2image.convert_from_bytes`,
the filesystem) are abstracted into an environment `Env` of opaque
functions.  Every observable action of the program is recorded as an
`Event` in a trace; the nondeterministic order in which
`concurrent.futures.as_completed` yields the futures is an explicit
parameter `obs` (in any real run a permutation of the submitted page
indices).  The executor's `with` block shuts down with `wait=True` and no
future is ever cancelled, so every submitted task runs to completion
before the function returns; the trace therefore contains every task's
events regardless of failures, serialized in submission order.  The claims
proved below depend only on which events occur (and their multiplicity),
not on the interleaving.
-/

namespace ExtractTiff

/-- Raw file content, abstracted as a list of byte values. -/
abbrev Bytes := List Nat

/-- A decoded page image produced by the rendering collaborator
(`pdf2image.convert_from_bytes`), treated as an opaque token. -/
abbrev Image := Nat

/-- The Python exceptions the program can raise or propagate.
`valueError` mirrors `raise ValueError(msg)` at lines 33 and 37 of
`main.py`; `osError` models an `OSError` (e.g. `FileExistsError` from
`os.makedirs` without `exist_ok`); `parseError` abstracts a `pypdf`
failure to read the page count; `renderError n` abstracts a `pdf2image`
failure to rasterize the task for zero-based page index `n`. -/
inductive PyExc where
  | valueError (msg : String)
  | osError (msg : String)
  | parseError
  | renderError (page : Nat)
  deriving DecidableEq, Repr

/-- The Python exception class of an exception, as a caller doing
`except SomeClass` sees it.  Both `raise ValueError` sites in `main.py`
produce class `ValueError`; the collaborator failures have their own
classes. -/
def PyExc.excClass : PyExc → String
  | .valueError _ => "ValueError"
  | .osError _ => "OSError"
  | .parseError => "PdfReadError"
  | .renderError _ => "PDFPageCountError"

instance {ε α : Type} [DecidableEq ε] [DecidableEq α] :
    DecidableEq (Except ε α) := fun a b =>
  match a, b with
  | .ok x, .ok y =>
      if h : x = y then isTrue (by rw [h]) else isFalse (by simp [h])
  | .ok _, .error _ => isFalse (by simp)
  | .error _, .ok _ => isFalse (by simp)
  | .error e, .error f =>
      if h : e = f then isTrue (by rw [h]) else isFalse (by simp [h])

/-- The arguments of `image.save(image_path, "TIFF", dpi=(resolution,
resolution))`: what gets persisted for one page. -/
structure SavedImage where
  image : Image
  format : String
  dpiX : Int
  dpiY : Int
  deriving DecidableEq, Repr

/-- One observable action of the program.  `isFileCheck` is
`os.path.isfile`; `openRead` is opening the PDF and reading its bytes
(lines 39 and 47); `makedirs` is `os.makedirs(dir, exist_ok)`;
`createExecutor` is `ThreadPoolExecutor(max_workers=...)`; `submit` is
`executor.submit` for a zero-based page index; `renderCall` is
`convert_from_bytes` with its `first_page`, `last_page`, `dpi` and
`grayscale` arguments; `save` is `image.save`; `progress` is the `print`
on success. -/
inductive Event where
  | isFileCheck (path : String)
  | openRead (path : String)
  | makedirs (dir : String) (exist_ok : Bool)
  | createExecutor (workers : Nat)
  | submit (page : Nat)
  | renderCall (first last : Nat) (dpi : Int) (grayscale : Bool)
  | save (path : String) (f : SavedImage)
  | progress (page : Nat) (path : String)
  deriving DecidableEq, Repr

/-- The environment of external collaborators: the filesystem predicate
`os.path.isfile`, the bytes of each file, `PdfReader`'s page count
(`none` = parse failure), and the renderer (`none` = rasterization
failure; called with the one-based page passed as `first_page`). -/
structure Env where
  isFile : String → Bool
  fileBytes : String → Bytes
  pageCount : Bytes → Option Nat
  render : Bytes → Int → Nat → Option Image

/-! ## Python decimal formatting `f"page_{m:04}.tiff"`

Python's `{m:04}` formats `m` in decimal, zero-padded on the left to a
minimum width of 4, widening without truncation for larger numbers.  We
model the decimal digits with a fuel-based helper so everything reduces by
`rfl`/`decide`. -/

/-- The character for one decimal digit value (`0 ≤ d ≤ 9`). -/
def digitChar (d : Nat) : Char := Char.ofNat (48 + d)

/-- Decimal digits of `n`, most significant first; `fuel ≥ n` suffices. -/
def toDecimalAux : Nat → Nat → List Char
  | 0, _ => []
  | fuel + 1, n =>
    if n = 0 then [] else toDecimalAux fuel (n / 10) ++ [digitChar (n % 10)]

/-- Decimal digit string of a natural number, as Python's `str`/`format`
produce it (no leading zeros, `"0"` for zero). -/
def toDecimal (n : Nat) : List Char :=
  if n = 0 then ['0'] else toDecimalAux n n

/-- Left-pad a digit string with `'0'` to a minimum width of 4:
Python's `{:04}` padding. -/
def pad4 (cs : List Char) : List Char :=
  List.replicate (4 - cs.length) '0' ++ cs

/-- Python `f"{m:04}"` for a natural number `m`. -/
def pythonFormat04 (m : Nat) : List Char := pad4 (toDecimal m)

/-- The output filename `f"page_{page_number+1:04}.tiff"` from line 93 of
`main.py` (for zero-based page index `page_number`). -/
def pageFileName (page_number : Nat) : String :=
  String.mk ("page_".data ++ (pythonFormat04 (page_number + 1) ++ ".tiff".data))

/-- `os.path.join(dir, name)` on POSIX with a directory not ending in a
separator. -/
def joinPath (dir name : String) : String := dir ++ "/" ++ name

/-! Decoding a filename back to its page number: used to state that the
encoding truncates nothing and that distinct pages get distinct names. -/

/-- Is `c` a decimal digit? -/
def isDecDigit (c : Char) : Bool := 48 ≤ c.toNat && c.toNat ≤ 57

/-- Numeric value of a digit character. -/
def digitVal (c : Char) : Nat := c.toNat - 48

/-- Parse a nonempty all-digit string (leading zeros allowed) as a natural
number. -/
def parseDigits (cs : List Char) : Option Nat :=
  if cs ≠ [] ∧ cs.all isDecDigit then
    some (cs.foldl (fun a c => 10 * a + digitVal c) 0)
  else none

/-- Recover the one-based page number from a character list of the shape
`page_<digits>.tiff`. -/
def decodePageChars (cs : List Char) : Option Nat :=
  if cs.take 5 = "page_".data ∧ cs.drop (cs.length - 5) = ".tiff".data ∧
      10 ≤ cs.length then
    parseDigits ((cs.drop 5).take (cs.length - 10))
  else none

/-- Recover the one-based page number from an output filename of the shape
`page_<digits>.tiff`. -/
def decodePageName (s : String) : Option Nat := decodePageChars s.data

/-! ## The Page Converter `_convert_page_to_image` -/

/-- The trace and outcome of one task execution. -/
structure TaskResult where
  events : List Event
  outcome : Except PyExc Unit
  deriving Repr

/-- `_convert_page_to_image(raw_pdf_bytes, resolution, output_directory,
page_number)` (lines 64–95 of `main.py`): calls `convert_from_bytes`
requesting exactly the one-based page `page_number+1` as both `first_page`
and `last_page`, in grayscale, at `dpi=resolution`; on success saves the
image as TIFF with the resolution embedded as both DPI axes and prints a
progress line; on render failure the collaborator's exception propagates. -/
def _convert_page_to_image (env : Env) (raw_pdf_bytes : Bytes)
    (resolution : Int) (output_directory : String) (page_number : Nat) :
    TaskResult :=
  match env.render raw_pdf_bytes resolution (page_number + 1) with
  | none =>
      { events := [.renderCall (page_number + 1) (page_number + 1) resolution true],
        outcome := .error (.renderError page_number) }
  | some img =>
      let image_path := joinPath output_directory (pageFileName page_number)
      { events := [.renderCall (page_number + 1) (page_number + 1) resolution true,
                   .save image_path
                     { image := img, format := "TIFF",
                       dpiX := resolution, dpiY := resolution },
                   .progress (page_number + 1) image_path],
        outcome := .ok () }

/-! ## The Dispatcher `extract_tiff_from_pdf` -/

/-- The worker-pool ceiling: `ThreadPoolExecutor(max_workers=20)` at line
50 of `main.py`. -/
def max_workers : Nat := 20

/-- The trace and outcome of a whole run. -/
structure RunOutput where
  events : List Event
  result : Except PyExc Unit
  deriving Repr

/-- The loop `for future in as_completed(futures): future.result()`
(lines 60–62): walk the futures in observation order and re-raise the
first failure found; return normally when none failed. -/
def joinAll (results : Nat → Except PyExc Unit) : List Nat → Except PyExc Unit
  | [] => .ok ()
  | p :: rest =>
    match results p with
    | .error e => .error e
    | .ok () => joinAll results rest

/-- `extract_tiff_from_pdf(pdf_path, output_directory, resolution)`
(lines 10–62 of `main.py`).  `obs` is the order in which `as_completed`
yields the futures — in any real run a permutation of the submitted page
indices.  All submitted tasks execute before the function returns (the
executor's `with` block shuts down with `wait=True` and never cancels),
so the trace contains every task's events regardless of failures,
serialized in submission order. -/
def extract_tiff_from_pdf (env : Env) (obs : List Nat)
    (pdf_path : String) (output_directory : String)
    (resolution : Int := 300) : RunOutput :=
  if resolution ≤ 0 then
    { events := [],
      result := .error (.valueError "Resolution must be a positive integer") }
  else if ¬ env.isFile pdf_path then
    { events := [.isFileCheck pdf_path],
      result := .error (.valueError ("PDF file not found: " ++ pdf_path)) }
  else
    match env.pageCount (env.fileBytes pdf_path) with
    | none =>
        { events := [.isFileCheck pdf_path, .openRead pdf_path],
          result := .error .parseError }
    | some total_pages =>
        let raw_pdf_bytes := env.fileBytes pdf_path
        let task := fun p =>
          _convert_page_to_image env raw_pdf_bytes resolution output_directory p
        { events := [.isFileCheck pdf_path, .openRead pdf_path,
                     .makedirs output_directory true,
                     .openRead pdf_path,
                     .createExecutor max_workers]
            ++ (List.range total_pages).map Event.submit
            ++ (List.range total_pages).flatMap (fun p => (task p).events),
          result := joinAll (fun p => (task p).outcome) obs }

/-! ## Trace observations -/

/-- The zero-based page indices submitted to the executor, in submission
order. -/
def submittedPages (events : List Event) : List Nat :=
  events.filterMap fun e =>
    match e with
    | .submit p => some p
    | _ => none

/-- The paths of the files written by `image.save`, in trace order. -/
def savedPaths (events : List Event) : List String :=
  events.filterMap fun e =>
    match e with
    | .save path _ => some path
    | _ => none

/-- The paths whose bytes the run read. -/
def readEvents (events : List Event) : List String :=
  events.filterMap fun e =>
    match e with
    | .openRead p => some p
    | _ => none

/-- Did this task raise?  (`future.result()` re-raises exactly when the
task's outcome is an exception.) -/
def taskFailed : Except PyExc Unit → Bool
  | .error _ => true
  | .ok _ => false

/-! ## A model of the filesystem side effects

`os.makedirs` and the cumulative effect of the `image.save` calls on the
output directory, used for the idempotency claim. -/

/-- Model of `os.makedirs(dir, exist_ok)`: creating an already-existing
directory fails with `FileExistsError` unless `exist_ok` is set; the
program always passes `exist_ok=True` (line 44). -/
def os_makedirs (dirs : List String) (dir : String) (exist_ok : Bool) :
    Except PyExc (List String) :=
  if dir ∈ dirs then
    if exist_ok then .ok dirs else .error (.osError "FileExistsError")
  else .ok (dir :: dirs)

/-- Apply one trace event to the store of written files; a `save`
overwrites any earlier file at the same path (the newest entry shadows
older ones under `lookupFile`). -/
def applyEvent (files : List (String × SavedImage)) : Event →
    List (String × SavedImage)
  | .save path f => (path, f) :: files
  | _ => files

/-- Apply a whole trace to the store of written files. -/
def applyEvents (files : List (String × SavedImage)) (events : List Event) :
    List (String × SavedImage) :=
  events.foldl applyEvent files

/-- The current content of the file at `path` (newest write wins). -/
def lookupFile (files : List (String × SavedImage)) (path : String) :
    Option SavedImage :=
  (files.find? fun kv => kv.1 == path).map fun kv => kv.2

/-- First option that is `some`, preferring the left. -/
def orO {α : Type} : Option α → Option α → Option α
  | some x, _ => some x
  | none, y => y

/-- The file this single event writes at `path`, if any. -/
def saveAt : Event → String → Option SavedImage
  | .save q f, p => if q == p then some f else none
  | _, _ => none

/-- The last write a trace performs at `path`, if any. -/
def lastSave : List Event → String → Option SavedImage
  | [], _ => none
  | e :: rest, p => orO (lastSave rest p) (saveAt e p)

/-! ## A model of the bounded worker pool

`ThreadPoolExecutor(max_workers=20)` runs each submitted task on one of
`max_workers` worker threads; tasks on the same worker are serialized.  A
schedule assigns each task a worker and a half-open execution interval
`[start, finish)` of abstract time. -/

/-- A schedule of `numTasks` tasks on the executor's worker threads. -/
structure PoolSchedule (numTasks : Nat) where
  worker : Fin numTasks → Fin max_workers
  start : Fin numTasks → Nat
  finish : Fin numTasks → Nat

/-- A schedule the executor can actually produce: every task takes some
time, and two distinct tasks on the same worker thread never overlap. -/
def PoolSchedule.Wf {n : Nat} (s : PoolSchedule n) : Prop :=
  (∀ i, s.start i < s.finish i) ∧
  ∀ i j, i ≠ j → s.worker i = s.worker j →
    s.finish i ≤ s.start j ∨ s.finish j ≤ s.start i

/-- The set of tasks executing at time `t`. -/
def runningAt {n : Nat} (s : PoolSchedule n) (t : Nat) : Finset (Fin n) :=
  Finset.univ.filter fun i => s.start i ≤ t ∧ t < s.finish i

/-- A concrete well-formed schedule of 50 tasks (more pages than
workers): task `i` runs on worker `i % 20` during `[i / 20, i / 20 + 1)`. -/
def schedule50 : PoolSchedule 50 where
  worker := fun i => ⟨i.val % 20, Nat.mod_lt _ (by omega)⟩
  start := fun i => i.val / 20
  finish := fun i => i.val / 20 + 1

/-! ## Concrete environments used as witnesses -/

/-- A healthy 2-page document: every collaborator call succeeds. -/
def envOk : Env where
  isFile := fun _ => true
  fileBytes := fun _ => [7]
  pageCount := fun _ => some 2
  render := fun _ _ p => some p

/-- A 3-page document whose second page (one-based page 2) fails to
render. -/
def envFail : Env where
  isFile := fun _ => true
  fileBytes := fun _ => [7]
  pageCount := fun _ => some 3
  render := fun _ _ p => if p = 2 then none else some p

/-- A 0-page document: the metadata reports no pages. -/
def envEmpty : Env where
  isFile := fun _ => true
  fileBytes := fun _ => [7]
  pageCount := fun _ => some 0
  render := fun _ _ _ => none

/-- A filesystem on which no path names an existing file. -/
def envMissing : Env where
  isFile := fun _ => false
  fileBytes := fun _ => []
  pageCount := fun _ => none
  render := fun _ _ _ => none

end ExtractTiff

namespace ExtractTiff

/-! ## Lemmas about the decimal encoding -/

theorem digitVal_digitChar {d : Nat} (h : d < 10) :
    digitVal (digitChar d) = d := by
  interval_cases d <;> decide

theorem isDecDigit_digitChar {d : Nat} (h : d < 10) :
    isDecDigit (digitChar d) = true := by
  interval_cases d <;> decide

theorem toDecimalAux_foldl :
    ∀ fuel n a : Nat, n ≤ fuel →
      (toDecimalAux fuel n).foldl (fun a c => 10 * a + digitVal c) a
        = a * 10 ^ (toDecimalAux fuel n).length + n := by
  intro fuel
  induction fuel with
  | zero =>
      intro n a h
      interval_cases n
      simp [toDecimalAux]
  | succ fuel ih =>
      intro n a h
      by_cases hn : n = 0
      · subst hn; simp [toDecimalAux]
      · rw [toDecimalAux, if_neg hn, List.foldl_append,
          ih (n / 10) a (by omega)]
        simp only [List.foldl_cons, List.foldl_nil, List.length_append,
          List.length_cons, List.length_nil]
        rw [digitVal_digitChar (by omega), pow_succ]
        have hsplit : 10 * (n / 10) + n % 10 = n := by omega
        calc 10 * (a * 10 ^ (toDecimalAux fuel (n / 10)).length + n / 10) + n % 10
            = a * (10 ^ (toDecimalAux fuel (n / 10)).length * 10)
              + (10 * (n / 10) + n % 10) := by ring
          _ = a * (10 ^ (toDecimalAux fuel (n / 10)).length * 10) + n := by
              rw [hsplit]

theorem toDecimalAux_all :
    ∀ fuel n : Nat, (toDecimalAux fuel n).all isDecDigit = true := by
  intro fuel
  induction fuel with
  | zero => intro n; rfl
  | succ fuel ih =>
      intro n
      by_cases hn : n = 0
      · subst hn; rfl
      · rw [toDecimalAux, if_neg hn, List.all_append, ih]
        simp [isDecDigit_digitChar (Nat.mod_lt n (by omega))]

theorem toDecimalAux_ne_nil :
    ∀ fuel n : Nat, n ≠ 0 → toDecimalAux (fuel + 1) n ≠ [] := by
  intro fuel n hn
  rw [toDecimalAux, if_neg hn]
  simp

theorem toDecimal_ne_nil (n : Nat) : toDecimal n ≠ [] := by
  by_cases hn : n = 0
  · subst hn; decide
  · rw [toDecimal, if_neg hn]
    have h1 : n = (n - 1) + 1 := by omega
    rw [h1]
    exact toDecimalAux_ne_nil (n - 1) ((n - 1) + 1) (by omega)

theorem toDecimal_all (n : Nat) : (toDecimal n).all isDecDigit = true := by
  by_cases hn : n = 0
  · subst hn; decide
  · rw [toDecimal, if_neg hn]; exact toDecimalAux_all n n

theorem toDecimal_foldl (n : Nat) :
    (toDecimal n).foldl (fun a c => 10 * a + digitVal c) 0 = n := by
  by_cases hn : n = 0
  · subst hn; decide
  · rw [toDecimal, if_neg hn, toDecimalAux_foldl n n 0 le_rfl]
    simp

theorem parseDigits_toDecimal (n : Nat) :
    parseDigits (toDecimal n) = some n := by
  rw [parseDigits, if_pos ⟨toDecimal_ne_nil n, toDecimal_all n⟩,
    toDecimal_foldl]

theorem foldl_replicate_zero :
    ∀ k : Nat,
      (List.replicate k '0').foldl (fun a c => 10 * a + digitVal c) 0 = 0 := by
  intro k
  induction k with
  | zero => rfl
  | succ k ih => simpa [List.replicate_succ] using ih

theorem all_replicate_zero (k : Nat) :
    (List.replicate k '0').all isDecDigit = true := by
  simp only [List.all_eq_true]
  intro c hc
  rw [(List.mem_replicate.mp hc).2]
  decide

theorem parseDigits_pad4_toDecimal (n : Nat) :
    parseDigits (pad4 (toDecimal n)) = some n := by
  rw [pad4, parseDigits, if_pos, List.foldl_append, foldl_replicate_zero,
    toDecimal_foldl]
  constructor
  · simp [toDecimal_ne_nil n]
  · rw [List.all_append, all_replicate_zero, toDecimal_all]
    rfl

theorem pad4_length (cs : List Char) :
    (pad4 cs).length = max 4 cs.length := by
  simp only [pad4, List.length_append, List.length_replicate]
  omega

/-! ## The output filename encodes the page number faithfully -/

theorem decodePageChars_concat (D : List Char) (h4 : 4 ≤ D.length) :
    decodePageChars ("page_".data ++ (D ++ ".tiff".data)) = parseDigits D := by
  have hA : ("page_".data).length = 5 := rfl
  have hT : (".tiff".data).length = 5 := rfl
  unfold decodePageChars
  have hlen : ("page_".data ++ (D ++ ".tiff".data)).length
      = 5 + (D.length + 5) := by
    rw [List.length_append, List.length_append, hA, hT]
  rw [hlen, if_pos]
  · have htake := @List.take_left' Char D (".tiff".data)
      (5 + (D.length + 5) - 10) (by omega)
    rw [List.drop_left' hA, htake]
  · refine ⟨List.take_left' hA, ?_, by omega⟩
    have h5 : 5 + (D.length + 5) - 5 = ("page_".data ++ D).length := by
      rw [List.length_append, hA]; omega
    rw [h5, ← List.append_assoc]
    exact List.drop_left' rfl

theorem pythonFormat04_length (m : Nat) :
    (pythonFormat04 m).length = max 4 (toDecimal m).length := by
  rw [pythonFormat04, pad4_length]

theorem decodePageName_pageFileName (n : Nat) :
    decodePageName (pageFileName n) = some (n + 1) := by
  have hdata : (pageFileName n).data
      = "page_".data ++ (pythonFormat04 (n + 1) ++ ".tiff".data) := rfl
  have h4 : 4 ≤ (pythonFormat04 (n + 1)).length := by
    rw [pythonFormat04_length]; omega
  rw [decodePageName, hdata, decodePageChars_concat _ h4, pythonFormat04,
    parseDigits_pad4_toDecimal]

theorem pageFileName_inj : Function.Injective pageFileName := by
  intro a b h
  have h2 := congrArg decodePageName h
  rw [decodePageName_pageFileName, decodePageName_pageFileName] at h2
  have h3 := Option.some.inj h2
  omega

theorem joinPath_inj (dir : String) {a b : String}
    (h : joinPath dir a = joinPath dir b) : a = b := by
  have h2 := congrArg String.data h
  simp only [joinPath, String.data_append, List.append_assoc] at h2
  exact String.ext (List.append_cancel_left (List.append_cancel_left h2))

end ExtractTiff

namespace ExtractTiff

/-! ## Unfolding the Dispatcher on valid inputs -/

theorem run_eq (env : Env) (obs : List Nat) (pdf dir : String) (res : Int)
    (P : Nat) (hres : 0 < res) (hfile : env.isFile pdf = true)
    (hpc : env.pageCount (env.fileBytes pdf) = some P) :
    extract_tiff_from_pdf env obs pdf dir res =
      { events := [.isFileCheck pdf, .openRead pdf, .makedirs dir true,
                   .openRead pdf, .createExecutor max_workers]
          ++ (List.range P).map Event.submit
          ++ (List.range P).flatMap
              (fun p =>
                (_convert_page_to_image env (env.fileBytes pdf) res dir p).events),
        result := joinAll
          (fun p =>
            (_convert_page_to_image env (env.fileBytes pdf) res dir p).outcome)
          obs } := by
  unfold extract_tiff_from_pdf
  rw [if_neg (by omega), if_neg (by simp [hfile]), hpc]

/-! ## Trace extraction lemmas -/

theorem submittedPages_append (a b : List Event) :
    submittedPages (a ++ b) = submittedPages a ++ submittedPages b :=
  List.filterMap_append a b _

theorem savedPaths_append (a b : List Event) :
    savedPaths (a ++ b) = savedPaths a ++ savedPaths b :=
  List.filterMap_append a b _

theorem submittedPages_map_submit (l : List Nat) :
    submittedPages (l.map Event.submit) = l := by
  induction l with
  | nil => rfl
  | cons p l ih =>
      simp only [List.map_cons, submittedPages, List.filterMap_cons] at *
      rw [ih]

theorem submittedPages_task (env : Env) (raw : Bytes) (res : Int)
    (dir : String) (p : Nat) :
    submittedPages ((_convert_page_to_image env raw res dir p).events) = [] := by
  cases h : env.render raw res (p + 1) <;>
    simp [_convert_page_to_image, h, submittedPages]

theorem submittedPages_flatMap (env : Env) (raw : Bytes) (res : Int)
    (dir : String) (l : List Nat) :
    submittedPages
      (l.flatMap fun p => (_convert_page_to_image env raw res dir p).events)
      = [] := by
  induction l with
  | nil => rfl
  | cons p l ih =>
      rw [List.flatMap_cons, submittedPages_append, submittedPages_task, ih]
      rfl

theorem savedPaths_task_ok (env : Env) (raw : Bytes) (res : Int)
    (dir : String) (p : Nat) (img : Image)
    (h : env.render raw res (p + 1) = some img) :
    savedPaths ((_convert_page_to_image env raw res dir p).events)
      = [joinPath dir (pageFileName p)] := by
  simp [_convert_page_to_image, h, savedPaths]

theorem savedPaths_flatMap (env : Env) (raw : Bytes) (res : Int)
    (dir : String) (l : List Nat)
    (h : ∀ p ∈ l, (env.render raw res (p + 1)).isSome = true) :
    savedPaths
      (l.flatMap fun p => (_convert_page_to_image env raw res dir p).events)
      = l.map fun p => joinPath dir (pageFileName p) := by
  induction l with
  | nil => rfl
  | cons p l ih =>
      obtain ⟨img, himg⟩ := Option.isSome_iff_exists.mp
        (h p (List.mem_cons_self p l))
      rw [List.flatMap_cons, savedPaths_append,
        savedPaths_task_ok env raw res dir p img himg, List.map_cons,
        ih (fun q hq => h q (List.mem_cons_of_mem p hq))]
      rfl

/-! ## The join over `as_completed` -/

theorem joinAll_eq_find (results : Nat → Except PyExc Unit) (l : List Nat) :
    joinAll results l =
      match l.find? (fun q => taskFailed (results q)) with
      | none => .ok ()
      | some p => results p := by
  induction l with
  | nil => rfl
  | cons p rest ih =>
      rw [joinAll, List.find?_cons]
      cases h : results p with
      | error e => simp [taskFailed, h]
      | ok u => cases u; simp [taskFailed, h, ih]

/-! ## The filesystem store -/

theorem orO_assoc {α : Type} (a b c : Option α) :
    orO (orO a b) c = orO a (orO b c) := by
  cases a <;> rfl

theorem lookupFile_applyEvent (fs : List (String × SavedImage)) (e : Event)
    (p : String) :
    lookupFile (applyEvent fs e) p = orO (saveAt e p) (lookupFile fs p) := by
  cases e with
  | save q f =>
      simp only [applyEvent, lookupFile, List.find?_cons, saveAt]
      cases hq : (q == p) <;> simp [hq, orO, lookupFile]
  | isFileCheck a => rfl
  | openRead a => rfl
  | makedirs a b => rfl
  | createExecutor a => rfl
  | submit a => rfl
  | renderCall a b c d => rfl
  | progress a b => rfl

theorem lookupFile_applyEvents (evs : List Event) :
    ∀ (fs : List (String × SavedImage)) (p : String),
      lookupFile (applyEvents fs evs) p
        = orO (lastSave evs p) (lookupFile fs p) := by
  induction evs with
  | nil => intro fs p; rfl
  | cons e evs ih =>
      intro fs p
      have h1 : applyEvents fs (e :: evs) = applyEvents (applyEvent fs e) evs := rfl
      rw [h1, ih (applyEvent fs e) p, lookupFile_applyEvent, lastSave, orO_assoc]

theorem applyEvents_idem (evs : List Event)
    (fs : List (String × SavedImage)) (p : String) :
    lookupFile (applyEvents (applyEvents fs evs) evs) p
      = lookupFile (applyEvents fs evs) p := by
  rw [lookupFile_applyEvents, lookupFile_applyEvents]
  cases lastSave evs p <;> rfl

theorem os_makedirs_exist_ok (dirs : List String) (dir : String) :
    ∃ dirs2, os_makedirs dirs dir true = .ok dirs2 := by
  by_cases h : dir ∈ dirs <;> simp [os_makedirs, h]

/-! ## The worker-pool bound -/

theorem runningAt_card_le {n : Nat} (s : PoolSchedule n) (hs : s.Wf)
    (t : Nat) : (runningAt s t).card ≤ max_workers := by
  classical
  have hinj : Set.InjOn s.worker (runningAt s t) := by
    intro i hi j hj hw
    by_contra hne
    have h1 := (Finset.mem_filter.mp (Finset.mem_coe.mp hi)).2
    have h2 := (Finset.mem_filter.mp (Finset.mem_coe.mp hj)).2
    rcases hs.2 i j hne hw with h | h <;> omega
  calc (runningAt s t).card
      ≤ (Finset.univ : Finset (Fin max_workers)).card :=
        Finset.card_le_card_of_injOn s.worker
          (fun a _ => Finset.mem_univ _) hinj
    _ = max_workers := by rw [Finset.card_univ, Fintype.card_fin]

/-! ## Task executions in the trace -/

theorem count_renderCall_task (env : Env) (raw : Bytes) (res : Int)
    (dir : String) (p q : Nat) :
    ((_convert_page_to_image env raw res dir q).events).count
        (Event.renderCall (p + 1) (p + 1) res true)
      = if q = p then 1 else 0 := by
  by_cases hqp : q = p
  · subst hqp
    cases h : env.render raw res (q + 1) <;>
      simp [_convert_page_to_image, h, List.count_cons]
  · cases h : env.render raw res (q + 1) <;>
      simp [_convert_page_to_image, h, List.count_cons, hqp]

theorem count_renderCall_flatMap (env : Env) (raw : Bytes) (res : Int)
    (dir : String) (p : Nat) (l : List Nat) :
    ((l.flatMap fun q =>
        (_convert_page_to_image env raw res dir q).events).count
      (Event.renderCall (p + 1) (p + 1) res true)) = l.count p := by
  induction l with
  | nil => rfl
  | cons q l ih =>
      rw [List.flatMap_cons, List.count_append, ih,
        count_renderCall_task, List.count_cons]
      by_cases h : q = p <;> simp [h]
      omega

end ExtractTiff

namespace ExtractTiff

/-! ## Run-level helper lemmas -/

theorem task_outcome_ok (env : Env) (raw : Bytes) (res : Int) (dir : String)
    (p : Nat) (img : Image) (h : env.render raw res (p + 1) = some img) :
    (_convert_page_to_image env raw res dir p).outcome = .ok () := by
  simp [_convert_page_to_image, h]

theorem task_outcome_err (env : Env) (raw : Bytes) (res : Int) (dir : String)
    (p : Nat) (h : env.render raw res (p + 1) = none) :
    (_convert_page_to_image env raw res dir p).outcome
      = .error (.renderError p) := by
  simp [_convert_page_to_image, h]

theorem submittedPages_prefix (pdf dir : String) :
    submittedPages [Event.isFileCheck pdf, Event.openRead pdf,
      Event.makedirs dir true, Event.openRead pdf,
      Event.createExecutor max_workers] = [] := rfl

theorem savedPaths_prefix (pdf dir : String) :
    savedPaths [Event.isFileCheck pdf, Event.openRead pdf,
      Event.makedirs dir true, Event.openRead pdf,
      Event.createExecutor max_workers] = [] := rfl

theorem savedPaths_map_submit (l : List Nat) :
    savedPaths (l.map Event.submit) = [] := by
  induction l with
  | nil => rfl
  | cons p l ih =>
      simp only [List.map_cons, savedPaths, List.filterMap_cons] at *
      rw [ih]

theorem submittedPages_run (env : Env) (obs : List Nat) (pdf dir : String)
    (res : Int) (P : Nat) (hres : 0 < res)
    (hfile : env.isFile pdf = true)
    (hpc : env.pageCount (env.fileBytes pdf) = some P) :
    submittedPages (extract_tiff_from_pdf env obs pdf dir res).events
      = List.range P := by
  rw [run_eq env obs pdf dir res P hres hfile hpc]
  dsimp only
  simp only [submittedPages_append, submittedPages_prefix,
    submittedPages_map_submit, submittedPages_flatMap, List.nil_append,
    List.append_nil]

theorem savedPaths_run (env : Env) (obs : List Nat) (pdf dir : String)
    (res : Int) (P : Nat) (hres : 0 < res)
    (hfile : env.isFile pdf = true)
    (hpc : env.pageCount (env.fileBytes pdf) = some P)
    (hrender : ∀ p, p < P →
      (env.render (env.fileBytes pdf) res (p + 1)).isSome = true) :
    savedPaths (extract_tiff_from_pdf env obs pdf dir res).events
      = (List.range P).map fun p => joinPath dir (pageFileName p) := by
  rw [run_eq env obs pdf dir res P hres hfile hpc]
  dsimp only
  simp only [savedPaths_append, savedPaths_prefix, savedPaths_map_submit,
    List.nil_append, List.append_nil]
  exact savedPaths_flatMap env (env.fileBytes pdf) res dir (List.range P)
    (fun p hp => hrender p (List.mem_range.mp hp))

theorem run_result_ok (env : Env) (obs : List Nat) (pdf dir : String)
    (res : Int) (P : Nat) (hres : 0 < res)
    (hfile : env.isFile pdf = true)
    (hpc : env.pageCount (env.fileBytes pdf) = some P)
    (hrender : ∀ p, p < P →
      (env.render (env.fileBytes pdf) res (p + 1)).isSome = true)
    (hobs : obs.Perm (List.range P)) :
    (extract_tiff_from_pdf env obs pdf dir res).result = .ok () := by
  rw [run_eq env obs pdf dir res P hres hfile hpc]
  dsimp only
  rw [joinAll_eq_find]
  have hnone : (obs.find? fun q => taskFailed
      ((_convert_page_to_image env (env.fileBytes pdf) res dir q).outcome))
      = none := by
    refine List.find?_eq_none.mpr ?_
    intro x hx
    have hxP : x < P := List.mem_range.mp (hobs.mem_iff.mp hx)
    obtain ⟨img, himg⟩ := Option.isSome_iff_exists.mp (hrender x hxP)
    simp [taskFailed,
      task_outcome_ok env (env.fileBytes pdf) res dir x img himg]
  rw [hnone]

end ExtractTiff

namespace ExtractTiff

/-! ## Count helpers for C3 -/

theorem count_renderCall_prefix (pdf dir : String) (p : Nat) (res : Int) :
    ([Event.isFileCheck pdf, Event.openRead pdf, Event.makedirs dir true,
      Event.openRead pdf, Event.createExecutor max_workers]).count
      (Event.renderCall (p + 1) (p + 1) res true) = 0 := rfl

theorem count_renderCall_submits (l : List Nat) (p : Nat) (res : Int) :
    (l.map Event.submit).count (Event.renderCall (p + 1) (p + 1) res true)
      = 0 := by
  rw [List.count_eq_zero]
  simp

/-! ## The claims -/

/-- Claim C1: for every valid document with `P` pages and positive
resolution, a successful run submits exactly one conversion task per page
index in the contiguous range `[0, P)` and produces exactly `P` output
files named `page_0001.tiff` … `page_{P:04d}.tiff`, with no gaps and no
duplicates; distinct page indices yield distinct filenames. -/
theorem C1_one_task_per_page_distinct_filenames (env : Env) (obs : List Nat)
    (pdf dir : String) (res : Int) (P : Nat) (hres : 0 < res)
    (hfile : env.isFile pdf = true)
    (hpc : env.pageCount (env.fileBytes pdf) = some P)
    (hrender : ∀ p, p < P →
      (env.render (env.fileBytes pdf) res (p + 1)).isSome = true)
    (hobs : obs.Perm (List.range P)) :
    submittedPages (extract_tiff_from_pdf env obs pdf dir res).events
        = List.range P ∧
    savedPaths (extract_tiff_from_pdf env obs pdf dir res).events
        = (List.range P).map (fun p => joinPath dir (pageFileName p)) ∧
    (savedPaths (extract_tiff_from_pdf env obs pdf dir res).events).Nodup ∧
    (savedPaths (extract_tiff_from_pdf env obs pdf dir res).events).length
        = P ∧
    (extract_tiff_from_pdf env obs pdf dir res).result = .ok () := by
  have h2 := savedPaths_run env obs pdf dir res P hres hfile hpc hrender
  refine ⟨submittedPages_run env obs pdf dir res P hres hfile hpc, h2, ?_, ?_,
    run_result_ok env obs pdf dir res P hres hfile hpc hrender hobs⟩
  · rw [h2]
    refine List.Nodup.map ?_ (List.nodup_range P)
    intro a b hab
    exact pageFileName_inj (joinPath_inj dir hab)
  · rw [h2, List.length_map, List.length_range]

/-- Claim C1, witness: a concrete healthy 2-page run. -/
theorem C1_witness :
    submittedPages (extract_tiff_from_pdf envOk [1, 0] "a.pdf" "out" 300).events
        = List.range 2 ∧
    savedPaths (extract_tiff_from_pdf envOk [1, 0] "a.pdf" "out" 300).events
        = (List.range 2).map (fun p => joinPath "out" (pageFileName p)) ∧
    (savedPaths
        (extract_tiff_from_pdf envOk [1, 0] "a.pdf" "out" 300).events).Nodup ∧
    (savedPaths
        (extract_tiff_from_pdf envOk [1, 0] "a.pdf" "out" 300).events).length
        = 2 ∧
    (extract_tiff_from_pdf envOk [1, 0] "a.pdf" "out" 300).result = .ok () :=
  C1_one_task_per_page_distinct_filenames envOk [1, 0] "a.pdf" "out" 300 2
    (by decide) rfl rfl (by decide) (by decide)

/-- Claim C2: if one or more page-conversion tasks fail, the run surfaces
the failure of the first task whose failure is observed in the
`as_completed` order; if every task succeeds, it returns normally with no
result value. -/
theorem C2_first_observed_failure (env : Env) (obs : List Nat)
    (pdf dir : String) (res : Int) (P : Nat) (hres : 0 < res)
    (hfile : env.isFile pdf = true)
    (hpc : env.pageCount (env.fileBytes pdf) = some P)
    (hobs : obs.Perm (List.range P)) :
    ((extract_tiff_from_pdf env obs pdf dir res).result =
      match obs.find? (fun q => taskFailed
          ((_convert_page_to_image env (env.fileBytes pdf) res dir q).outcome))
        with
      | none => .ok ()
      | some p =>
          (_convert_page_to_image env (env.fileBytes pdf) res dir p).outcome) ∧
    ((∀ p, p < P →
        (_convert_page_to_image env (env.fileBytes pdf) res dir p).outcome
          = .ok ()) →
      (extract_tiff_from_pdf env obs pdf dir res).result = .ok ()) := by
  rw [run_eq env obs pdf dir res P hres hfile hpc]
  dsimp only
  constructor
  · exact joinAll_eq_find _ obs
  · intro hok
    rw [joinAll_eq_find]
    have hnone : (obs.find? fun q => taskFailed
        ((_convert_page_to_image env (env.fileBytes pdf) res dir q).outcome))
        = none := by
      refine List.find?_eq_none.mpr ?_
      intro x hx
      have hxP : x < P := List.mem_range.mp (hobs.mem_iff.mp hx)
      simp [taskFailed, hok x hxP]
    rw [hnone]

/-- Claim C2, witness: page index 1 of a 3-page document fails and is
observed first among the failures; the run surfaces exactly that
failure. -/
theorem C2_witness :
    (extract_tiff_from_pdf envFail [2, 0, 1] "a.pdf" "out" 300).result
        = .error (.renderError 1) ∧
    ((∀ p, p < 3 →
        (_convert_page_to_image envFail (envFail.fileBytes "a.pdf") 300 "out"
            p).outcome = .ok ()) →
      (extract_tiff_from_pdf envFail [2, 0, 1] "a.pdf" "out" 300).result
        = .ok ()) := by
  have h := C2_first_observed_failure envFail [2, 0, 1] "a.pdf" "out" 300 3
    (by decide) rfl rfl (by decide)
  exact ⟨h.1, h.2⟩

/-- Claim C3: the run never returns before every submitted task has
completed, and a task failure never cancels sibling tasks: whatever the
per-page outcomes, every page index in `[0, P)` is submitted and its
render call occurs exactly once in the complete trace of the run. -/
theorem C3_all_tasks_run_to_completion (env : Env) (obs : List Nat)
    (pdf dir : String) (res : Int) (P : Nat) (hres : 0 < res)
    (hfile : env.isFile pdf = true)
    (hpc : env.pageCount (env.fileBytes pdf) = some P) :
    submittedPages (extract_tiff_from_pdf env obs pdf dir res).events
        = List.range P ∧
    ∀ p, p < P →
      ((extract_tiff_from_pdf env obs pdf dir res).events).count
          (Event.renderCall (p + 1) (p + 1) res true) = 1 := by
  refine ⟨submittedPages_run env obs pdf dir res P hres hfile hpc, ?_⟩
  intro p hp
  rw [run_eq env obs pdf dir res P hres hfile hpc]
  dsimp only
  simp only [List.count_append, count_renderCall_prefix,
    count_renderCall_submits, count_renderCall_flatMap]
  have h1 : (List.range P).count p = 1 :=
    List.count_eq_one_of_mem (List.nodup_range P) (List.mem_range.mpr hp)
  omega

/-- Claim C3, witness: in the 3-page run whose page index 1 fails, every
page (the failing one included) is submitted and rendered exactly once. -/
theorem C3_witness :
    submittedPages
        (extract_tiff_from_pdf envFail [2, 0, 1] "a.pdf" "out" 300).events
        = List.range 3 ∧
    ((extract_tiff_from_pdf envFail [2, 0, 1] "a.pdf" "out" 300).events).count
        (Event.renderCall (1 + 1) (1 + 1) 300 true) = 1 := by
  have h := C3_all_tasks_run_to_completion envFail [2, 0, 1] "a.pdf" "out"
    300 3 (by decide) rfl rfl
  exact ⟨h.1, h.2 1 (by decide)⟩

/-- Claim C4: for every resolution ≤ 0 the run fails with the
`ValueError` for a non-positive resolution before performing any I/O: the
trace is empty, so the input file is not read, the output directory is
not created, and no tasks are submitted. -/
theorem C4_nonpositive_resolution_no_io (env : Env) (obs : List Nat)
    (pdf dir : String) (res : Int) (hres : res ≤ 0) :
    (extract_tiff_from_pdf env obs pdf dir res).result
        = .error (.valueError "Resolution must be a positive integer") ∧
    (extract_tiff_from_pdf env obs pdf dir res).events = [] := by
  unfold extract_tiff_from_pdf
  rw [if_pos hres]
  exact ⟨rfl, rfl⟩

/-- Claim C4, witness: resolution 0 on a healthy environment. -/
theorem C4_witness :
    (extract_tiff_from_pdf envOk [] "a.pdf" "out" 0).result
        = .error (.valueError "Resolution must be a positive integer") ∧
    (extract_tiff_from_pdf envOk [] "a.pdf" "out" 0).events = [] :=
  C4_nonpositive_resolution_no_io envOk [] "a.pdf" "out" 0 (by decide)

/-- Claim C5, counterexample: the missing-file failure is **not** an
error kind distinct from the other error kinds — `main.py` raises
`ValueError` both for a missing input file (line 37) and for a
non-positive resolution (line 33), so the two failures share the
exception class `ValueError`. -/
theorem C5_counterexample :
    (extract_tiff_from_pdf envMissing [] "missing.pdf" "out" 300).result
        = .error (.valueError "PDF file not found: missing.pdf") ∧
    (extract_tiff_from_pdf envMissing [] "missing.pdf" "out" 0).result
        = .error (.valueError "Resolution must be a positive integer") ∧
    PyExc.excClass (.valueError "PDF file not found: missing.pdf")
        = PyExc.excClass (.valueError "Resolution must be a positive integer") := by
  refine ⟨?_, rfl, rfl⟩
  decide

/-- Claim C5 as amended: for every input path that does not name an
existing file (and any positive resolution), the run fails with a
`ValueError` carrying the message `"PDF file not found: {path}"` — the
same exception class as the invalid-resolution error, distinguishable
only by its message — before reading any bytes of the document. -/
theorem C5_missing_file_valueerror (env : Env) (obs : List Nat)
    (pdf dir : String) (res : Int) (hfile : env.isFile pdf = false)
    (hres : 0 < res) :
    (extract_tiff_from_pdf env obs pdf dir res).events
        = [Event.isFileCheck pdf] ∧
    (extract_tiff_from_pdf env obs pdf dir res).result
        = .error (.valueError ("PDF file not found: " ++ pdf)) ∧
    PyExc.excClass (.valueError ("PDF file not found: " ++ pdf))
        = PyExc.excClass (.valueError "Resolution must be a positive integer") ∧
    readEvents (extract_tiff_from_pdf env obs pdf dir res).events = [] := by
  unfold extract_tiff_from_pdf
  rw [if_neg (by omega), if_pos (by simp [hfile])]
  exact ⟨rfl, rfl, rfl, rfl⟩

/-- Claim C5, witness: a concrete missing file at resolution 300. -/
theorem C5_witness :
    (extract_tiff_from_pdf envMissing [] "missing.pdf" "out" 300).events
        = [Event.isFileCheck "missing.pdf"] ∧
    (extract_tiff_from_pdf envMissing [] "missing.pdf" "out" 300).result
        = .error (.valueError ("PDF file not found: " ++ "missing.pdf")) ∧
    PyExc.excClass (.valueError ("PDF file not found: " ++ "missing.pdf"))
        = PyExc.excClass (.valueError "Resolution must be a positive integer") ∧
    readEvents (extract_tiff_from_pdf envMissing [] "missing.pdf" "out"
        300).events = [] :=
  C5_missing_file_valueerror envMissing [] "missing.pdf" "out" 300 rfl
    (by decide)

/-- Claim C6: for every page index `n ≥ 0` the output filename is exactly
`page_{n+1}` zero-padded to at least 4 digits with suffix `.tiff`
(index 0 → `page_0001.tiff`), and page numbers of 5 or more digits widen
naturally: the digits decode back to `n+1` with no truncation. -/
theorem C6_filename_format (n : Nat) :
    pageFileName n
        = String.mk ("page_".data ++ (pythonFormat04 (n + 1) ++ ".tiff".data)) ∧
    (pythonFormat04 (n + 1)).length = max 4 (toDecimal (n + 1)).length ∧
    decodePageName (pageFileName n) = some (n + 1) ∧
    pageFileName 0 = "page_0001.tiff" ∧
    pageFileName 9999 = "page_10000.tiff" :=
  ⟨rfl, pythonFormat04_length (n + 1), decodePageName_pageFileName n,
    by decide, by decide⟩

/-- Claim C7: for every page index `n`, the page converter calls the
rendering collaborator requesting exactly one page with
`first_page = last_page = n+1`, grayscale, at the requested DPI, and on
success saves the result in TIFF format with the resolution embedded as
both DPI metadata axes. -/
theorem C7_render_and_save_arguments (env : Env) (raw : Bytes) (res : Int)
    (dir : String) (n : Nat) :
    ((_convert_page_to_image env raw res dir n).events).head?
        = some (.renderCall (n + 1) (n + 1) res true) ∧
    (∀ img, env.render raw res (n + 1) = some img →
      (_convert_page_to_image env raw res dir n).events
        = [.renderCall (n + 1) (n + 1) res true,
           .save (joinPath dir (pageFileName n))
             { image := img, format := "TIFF", dpiX := res, dpiY := res },
           .progress (n + 1) (joinPath dir (pageFileName n))]) := by
  constructor
  · cases h : env.render raw res (n + 1) <;>
      simp [_convert_page_to_image, h]
  · intro img himg
    simp [_convert_page_to_image, himg]

/-- Claim C7, witness: page index 0 at 300 DPI in the healthy
environment. -/
theorem C7_witness :
    (_convert_page_to_image envOk [7] 300 "out" 0).events
        = [.renderCall 1 1 300 true,
           .save (joinPath "out" (pageFileName 0))
             { image := 1, format := "TIFF", dpiX := 300, dpiY := 300 },
           .progress 1 (joinPath "out" (pageFileName 0))] :=
  (C7_render_and_save_arguments envOk [7] 300 "out" 0).2 1 rfl

/-- Claim C8: output-directory creation is idempotent
(`os.makedirs(..., exist_ok=True)` succeeds for any pre-existing state),
and re-running the conversion on the same document into the same
directory succeeds, overwriting existing files rather than raising: the
file store after applying the run's trace twice equals the store after
applying it once. -/
theorem C8_idempotent_rerun (env : Env) (obs : List Nat) (pdf dir : String)
    (res : Int) (P : Nat) (hres : 0 < res) (hfile : env.isFile pdf = true)
    (hpc : env.pageCount (env.fileBytes pdf) = some P)
    (hrender : ∀ p, p < P →
      (env.render (env.fileBytes pdf) res (p + 1)).isSome = true)
    (hobs : obs.Perm (List.range P)) :
    (∀ dirs, ∃ dirs2, os_makedirs dirs dir true = .ok dirs2) ∧
    Event.makedirs dir true
        ∈ (extract_tiff_from_pdf env obs pdf dir res).events ∧
    (extract_tiff_from_pdf env obs pdf dir res).result = .ok () ∧
    ∀ fs p,
      lookupFile (applyEvents
          (applyEvents fs (extract_tiff_from_pdf env obs pdf dir res).events)
          (extract_tiff_from_pdf env obs pdf dir res).events) p
        = lookupFile
            (applyEvents fs
              (extract_tiff_from_pdf env obs pdf dir res).events) p := by
  refine ⟨fun dirs => os_makedirs_exist_ok dirs dir, ?_,
    run_result_ok env obs pdf dir res P hres hfile hpc hrender hobs,
    fun fs p => applyEvents_idem _ fs p⟩
  rw [run_eq env obs pdf dir res P hres hfile hpc]
  simp

/-- Claim C8, witness: re-running the healthy 2-page conversion is a
no-op on the file store, and `makedirs` succeeds although `"out"`
already exists. -/
theorem C8_witness :
    (∃ dirs2, os_makedirs ["out"] "out" true = .ok dirs2) ∧
    Event.makedirs "out" true
        ∈ (extract_tiff_from_pdf envOk [0, 1] "a.pdf" "out" 300).events ∧
    (extract_tiff_from_pdf envOk [0, 1] "a.pdf" "out" 300).result = .ok () ∧
    lookupFile (applyEvents
        (applyEvents []
          (extract_tiff_from_pdf envOk [0, 1] "a.pdf" "out" 300).events)
        (extract_tiff_from_pdf envOk [0, 1] "a.pdf" "out" 300).events)
        (joinPath "out" (pageFileName 0))
      = lookupFile
          (applyEvents []
            (extract_tiff_from_pdf envOk [0, 1] "a.pdf" "out" 300).events)
          (joinPath "out" (pageFileName 0)) := by
  obtain ⟨h1, h2, h3, h4⟩ := C8_idempotent_rerun envOk [0, 1] "a.pdf" "out"
    300 2 (by decide) rfl rfl (by decide) (by decide)
  exact ⟨h1 ["out"], h2, h3, h4 [] (joinPath "out" (pageFileName 0))⟩

/-- Claim C9: all tasks are submitted to a worker pool with a fixed
ceiling of `max_workers = 20`, and in every well-formed schedule of that
pool at most 20 tasks execute simultaneously, even when the task count
exceeds 20. -/
theorem C9_concurrency_bound (env : Env) (obs : List Nat) (pdf dir : String)
    (res : Int) (P : Nat) (hres : 0 < res) (hfile : env.isFile pdf = true)
    (hpc : env.pageCount (env.fileBytes pdf) = some P)
    {n : Nat} (s : PoolSchedule n) (hs : s.Wf) (t : Nat) :
    Event.createExecutor max_workers
        ∈ (extract_tiff_from_pdf env obs pdf dir res).events ∧
    (runningAt s t).card ≤ max_workers ∧
    max_workers = 20 := by
  refine ⟨?_, runningAt_card_le s hs t, rfl⟩
  rw [run_eq env obs pdf dir res P hres hfile hpc]
  simp

/-- Claim C9, witness: a well-formed 50-task schedule (more pages than
workers) stays within the ceiling. -/
theorem C9_witness :
    Event.createExecutor max_workers
        ∈ (extract_tiff_from_pdf envOk [1, 0] "a.pdf" "out" 300).events ∧
    (runningAt schedule50 0).card ≤ max_workers ∧
    max_workers = 20 :=
  C9_concurrency_bound envOk [1, 0] "a.pdf" "out" 300 2 (by decide) rfl rfl
    schedule50 (by unfold PoolSchedule.Wf; decide) 0

/-- Claim C10: for a document whose metadata reports zero pages (with an
existing input file and positive resolution), the run returns normally,
creates the output directory, submits no tasks and writes no output
files. -/
theorem C10_zero_pages (env : Env) (obs : List Nat) (pdf dir : String)
    (res : Int) (hres : 0 < res) (hfile : env.isFile pdf = true)
    (hpc : env.pageCount (env.fileBytes pdf) = some 0)
    (hobs : obs.Perm (List.range 0)) :
    (extract_tiff_from_pdf env obs pdf dir res).result = .ok () ∧
    Event.makedirs dir true
        ∈ (extract_tiff_from_pdf env obs pdf dir res).events ∧
    submittedPages (extract_tiff_from_pdf env obs pdf dir res).events = [] ∧
    savedPaths (extract_tiff_from_pdf env obs pdf dir res).events = [] := by
  have hobs0 : obs = [] := by
    rw [List.range_zero] at hobs
    exact hobs.eq_nil
  rw [run_eq env obs pdf dir res 0 hres hfile hpc, hobs0, List.range_zero]
  refine ⟨rfl, ?_, rfl, rfl⟩
  simp

/-- Claim C10, witness: a concrete 0-page document. -/
theorem C10_witness :
    (extract_tiff_from_pdf envEmpty [] "a.pdf" "out" 300).result = .ok () ∧
    Event.makedirs "out" true
        ∈ (extract_tiff_from_pdf envEmpty [] "a.pdf" "out" 300).events ∧
    submittedPages
        (extract_tiff_from_pdf envEmpty [] "a.pdf" "out" 300).events = [] ∧
    savedPaths
        (extract_tiff_from_pdf envEmpty [] "a.pdf" "out" 300).events = [] :=
  C10_zero_pages envEmpty [] "a.pdf" "out" 300 (by decide) rfl rfl
    (by decide)

end ExtractTiff
